import Mathlib

/-!
Verification of the coordinate parser of the messier-explorer repository,
object classifier/styler and data loading pipeline.

The Python sources (`src/config.py`, `src/data_utils.py`) are shallowly
embedded below.  Conventions of the embedding:

* Python strings are Lean `String`s, processed as `List Char`.
  `str.lower()` is `lowerCs` (the keyword matching of the repository only
  ever compares against pure-ASCII keywords, on which the two agree).
* Python `float(...)` applied to the numeric fields of coordinate strings
  is modelled exactly on decimal literals (optional surrounding ASCII
  whitespace, optional single ASCII sign, `digits [. digits]` or
  `. digits`); the value is kept exactly as a `PyNum` (an integer
  mantissa together with a count of fractional digits) and interpreted
  into `ℚ` by `PyNum.toRat`.  Exponents, `inf`/`nan`, underscores and
  non-ASCII digits are not exercised by the data of the repository or by the
  claims and are treated as parse failures.  Binary floating point
  rounding is idealised away: all arithmetic is exact in `ℚ`.
* A Python `try: ... except: return 0` around a parse is modelled by an
  `Option`-valued parse (`raParts`, `decParts`); `none` corresponds to a
  raised-and-caught exception (any `IndexError`/`ValueError` inside the
  body).  The `print` in the `except` branch is modelled by the `Bool`
  component of `ra_to_degrees_logged` / `dec_to_degrees_logged`
  (`true` exactly when the warning line is printed).
* pandas DataFrames are lists of records; `data.copy()` makes the
  embedded `process_coordinates` a pure function of its input list.
-/

/-! ### Generic string helpers (Python `str` operations) -/

/-- Python `s.lower()` restricted to ASCII case folding (the repository
only matches ASCII keywords, where CPython agrees). -/
def lowerCs (cs : List Char) : List Char := cs.map Char.toLower

/-- Boolean list-prefix test on characters. -/
def isPrefixCs : List Char → List Char → Bool
  | [], _ => true
  | _ :: _, [] => false
  | p :: ps, c :: cs => p = c && isPrefixCs ps cs

/-- Boolean substring test: Python `pat in s` on character lists. -/
def isSubstrCs : List Char → List Char → Bool
  | pat, [] => pat.isEmpty
  | pat, c :: cs => isPrefixCs pat (c :: cs) || isSubstrCs pat cs

/-- Python str.replace of a one-character pattern by the empty string: removes every
occurrence of the character. -/
def removeChar (c : Char) (cs : List Char) : List Char :=
  cs.filter (fun x => !(x = c))

/-- Helper for `pyWords`: accumulates the current word (reversed). -/
def wordsAux : List Char → List Char → List (List Char)
  | [], cur => if cur.isEmpty then [] else [cur.reverse]
  | c :: rest, cur =>
    if c.isWhitespace then
      if cur.isEmpty then wordsAux rest [] else cur.reverse :: wordsAux rest []
    else wordsAux rest (c :: cur)

/-- Python `str.split()` with no argument: split on whitespace runs,
discarding empty pieces. -/
def pyWords (cs : List Char) : List (List Char) := wordsAux cs []

/-- Strip leading and trailing whitespace. -/
def trimCs (cs : List Char) : List Char :=
  ((cs.dropWhile Char.isWhitespace).reverse.dropWhile Char.isWhitespace).reverse

/-! ### Python `float(...)` on decimal literals -/

/-- Exact value of a parsed Python decimal literal: the rational
`mant / 10 ^ fd`. -/
structure PyNum where
  mant : ℤ
  fd : ℕ
deriving DecidableEq

/-- Interpretation of a parsed literal as an exact rational. -/
def PyNum.toRat (p : PyNum) : ℚ := (p.mant : ℚ) / 10 ^ p.fd

/-- The literal `0` (the Python int `0` default for missing fields). -/
def PyNum.zero : PyNum := ⟨0, 0⟩

/-- Numeric value of a digit string (most significant first). -/
def digitsToNat (ds : List Char) : ℕ :=
  ds.foldl (fun acc c => 10 * acc + (c.toNat - 48)) 0

/-- Unsigned part of a Python float literal: `digits [. digits]` or
`. digits` (at least one digit overall, trailing dot allowed). -/
def parseUnsigned (cs : List Char) : Option PyNum :=
  let intDigits := cs.takeWhile Char.isDigit
  let rest := cs.dropWhile Char.isDigit
  match rest with
  | [] => if intDigits.isEmpty then none else some ⟨digitsToNat intDigits, 0⟩
  | '.' :: frac =>
    if frac.all Char.isDigit && (!intDigits.isEmpty || !frac.isEmpty) then
      some ⟨digitsToNat intDigits * 10 ^ frac.length + digitsToNat frac, frac.length⟩
    else none
  | _ => none

/-- Python `float(str)` on decimal literals: optional surrounding
whitespace, optional single ASCII sign, then an unsigned literal.
`none` models a raised `ValueError`. -/
def pyFloat (cs : List Char) : Option PyNum :=
  let t := trimCs cs
  match t with
  | '+' :: rest => parseUnsigned rest
  | '-' :: rest => (parseUnsigned rest).map (fun p => ⟨-p.mant, p.fd⟩)
  | _ => parseUnsigned t

/-! ### `src/config.py`: categories, classifier and styler -/

/-- One entry of `OBJECT_CATEGORIES`: base symbol, base colour and the
keyword list used for classification. -/
structure CategoryConfig where
  base_symbol : String
  base_color : String
  keywords : List String
deriving DecidableEq

/-- The `OBJECT_CATEGORIES` dict of `config.py`, in insertion order
(Python 3 dicts iterate in insertion order). -/
def OBJECT_CATEGORIES : List (String × CategoryConfig) :=
  [("Galaxy", ⟨"circle", "#FF6B6B", ["galaxy", "Galaxy"]⟩),
   ("Nebula", ⟨"square", "#DDA0DD", ["nebula", "Nebula"]⟩),
   ("Cluster", ⟨"star", "#96CEB4", ["cluster", "Cluster", "cloud"]⟩),
   ("Other", ⟨"diamond", "#FFEAA7", []⟩)]

/-- The double loop of `classify_object_type`: first category (in list
order) one of whose lowered keywords occurs in the lowered label wins;
fall through to the default category Other. -/
def firstMatch (cats : List (String × CategoryConfig)) (lbl : List Char) : String :=
  match cats with
  | [] => "Other"
  | (name, cfg) :: rest =>
    if cfg.keywords.any (fun kw => isSubstrCs (lowerCs kw.toList) lbl) then name
    else firstMatch rest lbl

/-- `config.classify_object_type`: classify an object-type label into a
main category by case-insensitive keyword substring match. -/
def classify_object_type (obj_type : String) : String :=
  firstMatch OBJECT_CATEGORIES (lowerCs obj_type.toList)

/-- The dict returned by `get_object_style`. -/
structure Style where
  symbol : String
  color : String
  size : ℕ
  category : String
deriving DecidableEq

/-- The `color_variations` dict of `get_object_style`; `color_variations.get(category, {})`
yields `[]` for unknown categories. -/
def color_variations (cat : String) : List (String × String) :=
  if cat = "Galaxy" then
    [("spiral galaxy", "#FF6B6B"),
     ("elliptical galaxy", "#FF8E8E"),
     ("dwarf elliptical galaxy", "#FFB1B1"),
     ("barred spiral galaxy", "#FF4848"),
     ("lenticular galaxy", "#FFA0A0"),
     ("starburst galaxy", "#FF2525")]
  else if cat = "Nebula" then
    [("planetary nebula", "#DDA0DD"),
     ("h ii region nebula", "#E6B3E6"),
     ("diffuse nebula", "#F0C6F0"),
     ("nebula with cluster", "#D187D1"),
     ("supernova remnant", "#C66EC6")]
  else if cat = "Cluster" then
    [("globular cluster", "#96CEB4"),
     ("open cluster", "#A8D4C1"),
     ("milky way star cloud", "#BCDACF")]
  else if cat = "Other" then
    [("optical double", "#FFEAA7"),
     ("asterism", "#FFE074")]
  else []

/-- The `symbol_variations` dict of `get_object_style`. -/
def symbol_variations (cat : String) : List (String × String) :=
  if cat = "Galaxy" then
    [("spiral galaxy", "circle"),
     ("elliptical galaxy", "circle-open"),
     ("dwarf elliptical galaxy", "circle-dot"),
     ("barred spiral galaxy", "circle-cross"),
     ("lenticular galaxy", "circle-x"),
     ("starburst galaxy", "circle")]
  else if cat = "Nebula" then
    [("planetary nebula", "square"),
     ("h ii region nebula", "square-open"),
     ("diffuse nebula", "square-dot"),
     ("nebula with cluster", "square-cross"),
     ("supernova remnant", "triangle-up")]
  else if cat = "Cluster" then
    [("globular cluster", "star"),
     ("open cluster", "star-open"),
     ("milky way star cloud", "star-dot")]
  else if cat = "Other" then
    [("optical double", "diamond"),
     ("asterism", "diamond-open")]
  else []

/-- `config.get_object_style`: classify, then look up per-label colour and
symbol overrides keyed by the lowercased label, falling back to the
base colour/symbol of the category.  The `getD` default of the base-config
lookup is never reached: `classify_object_type` always returns a key of
`OBJECT_CATEGORIES` (Python indexes `OBJECT_CATEGORIES[category]`
directly). -/
def get_object_style (obj_type : String) : Style :=
  let category := classify_object_type obj_type
  let base := (OBJECT_CATEGORIES.lookup category).getD ⟨"", "", []⟩
  let lbl := String.mk (lowerCs obj_type.toList)
  let color := ((color_variations category).lookup lbl).getD base.base_color
  let symbol := ((symbol_variations category).lookup lbl).getD base.base_symbol
  ⟨symbol, color, 8, category⟩

/-! ### `src/data_utils.py`: coordinate parsing -/

/-- Numeric fields of the `'h' in ra_str and 'm' in ra_str` branch of
`ra_to_degrees`: `parts[0]` and `parts[1]` are mandatory
(an `IndexError`/`ValueError` is the `none` case), `parts[2]` optional
with default `0`; extra parts are ignored. -/
def numsHM : List (List Char) → Option (PyNum × PyNum × PyNum)
  | p0 :: p1 :: [] =>
    match pyFloat p0, pyFloat p1 with
    | some a, some b => some (a, b, PyNum.zero)
    | _, _ => none
  | p0 :: p1 :: p2 :: _ =>
    match pyFloat p0, pyFloat p1, pyFloat p2 with
    | some a, some b, some c => some (a, b, c)
    | _, _, _ => none
  | _ => none

/-- Numeric fields of the fallback branch of `ra_to_degrees` and of
`dec_to_degrees`: `parts[0]` mandatory, `parts[1]` and `parts[2]`
optional with default `0`; extra parts are ignored. -/
def numsOpt : List (List Char) → Option (PyNum × PyNum × PyNum)
  | [] => none
  | [p0] => (pyFloat p0).map (fun a => (a, PyNum.zero, PyNum.zero))
  | [p0, p1] =>
    match pyFloat p0, pyFloat p1 with
    | some a, some b => some (a, b, PyNum.zero)
    | _, _ => none
  | p0 :: p1 :: p2 :: _ =>
    match pyFloat p0, pyFloat p1, pyFloat p2 with
    | some a, some b, some c => some (a, b, c)
    | _, _, _ => none

/-- Parsing phase of `ra_to_degrees`: if the string contains both `'h'`
and `'m'`, strip all `h`/`m`/`s` characters and split; otherwise split
the raw string.  `none` models the exception caught by the
`try`/`except`. -/
def raParts (s : String) : Option (PyNum × PyNum × PyNum) :=
  let cs := s.toList
  if cs.contains 'h' && cs.contains 'm' then
    numsHM (pyWords (removeChar 's' (removeChar 'm' (removeChar 'h' cs))))
  else
    numsOpt (pyWords cs)

/-- The returned value `(hours + minutes/60 + seconds/3600) * 15`. -/
def raVal (h m sec : PyNum) : ℚ :=
  (h.toRat + m.toRat / 60 + sec.toRat / 3600) * 15

/-- `data_utils.ra_to_degrees` together with its logging effect: the
`Bool` is `true` exactly when the `except` branch prints its
`Error parsing RA` warning (and the default `0` is returned). -/
def ra_to_degrees_logged (s : String) : ℚ × Bool :=
  match raParts s with
  | some (h, m, sec) => (raVal h m sec, false)
  | none => (0, true)

/-- `data_utils.ra_to_degrees` (returned value only). -/
def ra_to_degrees (s : String) : ℚ := (ra_to_degrees_logged s).1

/-- The ASCII apostrophe (written via its code point to keep the source
free of quote characters). -/
def squoteChar : Char := Char.ofNat 39

/-- The Unicode minus sign U+2212 handled by `dec_to_degrees`. -/
def uminusChar : Char := Char.ofNat 8722

/-- Parsing phase of `dec_to_degrees`: remove the five glyphs
degree, prime, double-prime, single-quote and double-quote, read the
sign off the first remaining character
(`-` or Unicode minus mean negative), strip all leading `+`/`-`/`−`,
split on whitespace and convert the parts.  `none` models the caught
exception (empty string or failed `float`). -/
def decParts (s : String) : Option (ℤ × PyNum × PyNum × PyNum) :=
  let cs := removeChar '"' (removeChar squoteChar
    (removeChar '″' (removeChar '′' (removeChar '°' s.toList))))
  match cs with
  | [] => none
  | c0 :: _ =>
    let sg : ℤ := if c0 = '-' || c0 = uminusChar then -1 else 1
    let stripped := cs.dropWhile (fun c => c = '+' || c = '-' || c = uminusChar)
    (numsOpt (pyWords stripped)).map (fun t => (sg, t.1, t.2.1, t.2.2))

/-- The returned value `sign * (degrees + minutes/60 + seconds/3600)`. -/
def decVal (sg : ℤ) (d m sec : PyNum) : ℚ :=
  (sg : ℚ) * (d.toRat + m.toRat / 60 + sec.toRat / 3600)

/-- `data_utils.dec_to_degrees` together with its logging effect: the
`Bool` is `true` exactly when the `except` branch prints its
`Error parsing Dec` warning (and the default `0` is returned). -/
def dec_to_degrees_logged (s : String) : ℚ × Bool :=
  match decParts s with
  | some (sg, d, m, sec) => (decVal sg d m sec, false)
  | none => (0, true)

/-- `data_utils.dec_to_degrees` (returned value only). -/
def dec_to_degrees (s : String) : ℚ := (dec_to_degrees_logged s).1

/-- The classifier defined locally inside `data_utils.get_filter_options`
(`classify_object_type_local`), written there independently of
`config.classify_object_type` to avoid a circular import. -/
def classify_object_type_local (obj_type : String) : String :=
  let s := lowerCs obj_type.toList
  if ["galaxy"].any (fun kw => isSubstrCs kw.toList s) then "Galaxy"
  else if ["nebula"].any (fun kw => isSubstrCs kw.toList s) then "Nebula"
  else if ["cluster", "cloud"].any (fun kw => isSubstrCs kw.toList s) then "Cluster"
  else "Other"

/-! ### `src/data_utils.py`: data loading (`load_messier_data`) -/

/-- One record of the Messier table, with the columns of
`SAMPLE_MESSIER_DATA` in `config.py`.  Numeric cells are exact
rationals. -/
structure MessierRow where
  number : ℤ
  messierNumber : String
  ngcIcNumber : ℤ
  commonName : String
  objectType : String
  distanceKly : ℚ
  constellation : String
  apparentMagnitude : ℚ
  rightAscension : String
  declination : String
  bestViewing : String

/-- `config.SAMPLE_MESSIER_DATA`, the embedded default sample table
(10 rows). -/
def SAMPLE_MESSIER_DATA : List MessierRow :=
  [⟨31, "M31", 224, "Andromeda Galaxy", "Spiral galaxy", 2540, "Andromeda", 34/10,
    "00h 42m 44.3s", "+41° 16′ 09″", "autumn"⟩,
   ⟨32, "M32", 221, "Andromeda Satellite #1", "Dwarf elliptical galaxy", 2490, "Andromeda", 81/10,
    "00h 42m 41.8s", "+40° 51′ 55″", "autumn"⟩,
   ⟨1, "M1", 1952, "Crab Nebula", "Supernova remnant", 65/10, "Taurus", 84/10,
    "05h 34m 31.9s", "+22° 00′ 52″", "winter"⟩,
   ⟨13, "M13", 6205, "Hercules Cluster", "Globular cluster", 251/10, "Hercules", 58/10,
    "16h 41m 41.2s", "+36° 27′ 37″", "summer"⟩,
   ⟨42, "M42", 1976, "Orion Nebula", "Nebula", 1344/1000, "Orion", 4,
    "05h 35m 17.3s", "-05° 23′ 13″", "winter"⟩,
   ⟨57, "M57", 6720, "Ring Nebula", "Planetary nebula", 23/10, "Lyra", 88/10,
    "18h 53m 35.1s", "+33° 01′ 45″", "summer"⟩,
   ⟨27, "M27", 6853, "Dumbbell Nebula", "Planetary nebula", 136/100, "Vulpecula", 75/10,
    "19h 59m 36.3s", "+22° 43′ 16″", "summer"⟩,
   ⟨81, "M81", 3031, "Bode\x27s Galaxy", "Spiral galaxy", 11800, "Ursa Major", 69/10,
    "09h 55m 33.2s", "+69° 03′ 55″", "spring"⟩,
   ⟨51, "M51", 5194, "Whirlpool Galaxy", "Spiral galaxy", 23000, "Canes Venatici", 84/10,
    "13h 29m 52.7s", "+47° 11′ 43″", "spring"⟩,
   ⟨104, "M104", 4594, "Sombrero Galaxy", "Spiral galaxy", 31100, "Virgo", 8,
    "12h 39m 59.4s", "-11° 37′ 23″", "spring"⟩]

/-- Outcome of `pd.read_csv(csv_path)`: success, `FileNotFoundError`, or
any other exception. -/
inductive CsvResult where
  | ok (t : List MessierRow)
  | notFound
  | failed

/-- Environment of `load_messier_data`: the outcome of the external
astronomical-service loader (`load_messier_from_astropy`, `none` when it
returns `None` after its internal failures) and the outcome of reading a
CSV at each path. -/
structure DataEnv where
  astropyResult : Option (List MessierRow)
  readCsv : String → CsvResult

/-- The CSV branch of `load_messier_data`: default the path to
`Messier_data.csv`, try `pd.read_csv`, and fall back to the embedded
sample on `FileNotFoundError` or any other load error. -/
def load_csv_or_sample (env : DataEnv) (csv_path : Option String) : List MessierRow :=
  let path := csv_path.getD "Messier_data.csv"
  match env.readCsv path with
  | .ok t => t
  | .notFound => SAMPLE_MESSIER_DATA
  | .failed => SAMPLE_MESSIER_DATA

/-- `data_utils.load_messier_data`: when `use_astronomical_data` is set,
first try the external service and return its table when it yields one;
otherwise (or when the service yields `None`) fall through to the CSV
branch. -/
def load_messier_data (env : DataEnv) (csv_path : Option String)
    (use_astronomical_data : Bool) : List MessierRow :=
  if use_astronomical_data then
    match env.astropyResult with
    | some t => t
    | none => load_csv_or_sample env csv_path
  else load_csv_or_sample env csv_path

/-- Modelled from the words of the spec claim, for comparison with the code:
produce the table from the first available source in the priority order
explicit file path, then external service (best-effort), else the
embedded default sample. -/
def load_messier_data_claimed (env : DataEnv) (csv_path : Option String)
    (use_astronomical_data : Bool) : List MessierRow :=
  let service : List MessierRow :=
    if use_astronomical_data then
      match env.astropyResult with
      | some t => t
      | none => SAMPLE_MESSIER_DATA
    else SAMPLE_MESSIER_DATA
  match csv_path with
  | some p =>
    match env.readCsv p with
    | .ok t => t
    | _ => service
  | none => service

/-! ### `src/data_utils.py`: `process_coordinates` -/

/-- A row of an input table for `process_coordinates`: the two coordinate
text columns plus all remaining columns, kept abstract in `rest`. -/
structure CoordRow (α : Type) where
  rightAscension : String
  declination : String
  rest : α
deriving DecidableEq

/-- An output row: the input row extended with exactly the two derived
columns `ra_deg` and `dec_deg`. -/
structure CoordRowOut (α : Type) extends CoordRow α where
  ra_deg : ℚ
  dec_deg : ℚ

/-- `data_utils.process_coordinates`: copy the table and attach the two
derived columns computed by the coordinate parsers.  The `data.copy()`
of the source makes this a pure function of the input table. -/
def process_coordinates {α : Type} (data : List (CoordRow α)) : List (CoordRowOut α) :=
  data.map (fun r =>
    { toCoordRow := r
      ra_deg := ra_to_degrees r.rightAscension
      dec_deg := dec_to_degrees r.declination })

/-- The validity test applied per row by `process_coordinates`. -/
def validCoord {α : Type} (r : CoordRowOut α) : Prop :=
  0 ≤ r.ra_deg ∧ r.ra_deg ≤ 360 ∧ -90 ≤ r.dec_deg ∧ r.dec_deg ≤ 90

/-- `process_coordinates` prints its warning line exactly when some row
fails the validity test. -/
def process_coordinates_warns {α : Type} (data : List (CoordRow α)) : Prop :=
  ∃ r ∈ process_coordinates data, ¬ validCoord r

/-! ### Concrete rows and environments used by witnesses and counterexamples -/

/-- The table served by the external service in the loader environment
below. -/
def cexRowService : MessierRow :=
  ⟨1, "M1", 0, "From service", "Nebula", 0, "Taurus", 0, "", "", "winter"⟩

/-- The row held by the readable CSV file in the loader environment
below. -/
def cexRowFile : MessierRow :=
  ⟨2, "M2", 0, "From file", "Cluster", 0, "Aquarius", 0, "", "", "summer"⟩

/-- A loader environment in which both the external service and the
explicit file path are available, with distinct tables. -/
def cexEnv : DataEnv := ⟨some [cexRowService], fun _ => .ok [cexRowFile]⟩

/-- An input row with an out-of-range RA (25h scales to 375 degrees),
used to exercise `process_coordinates` on a row that only gets
flagged. -/
def c9row : CoordRow Unit := ⟨"25h 00m 00s", "+91° 00′ 00″", ()⟩

/-! ### Helper lemmas -/

/-- Resolving the concrete category list: `classify_object_type` is the
first-match if-chain over the keywords galaxy, nebula, cluster/cloud
(both keyword casings of each category lower to the same word). -/
theorem classify_ifchain (s : String) :
    classify_object_type s =
      (if isSubstrCs "galaxy".toList (lowerCs s.toList) then "Galaxy"
       else if isSubstrCs "nebula".toList (lowerCs s.toList) then "Nebula"
       else if isSubstrCs "cluster".toList (lowerCs s.toList)
              || isSubstrCs "cloud".toList (lowerCs s.toList) then "Cluster"
       else "Other") := by
  have e1 : lowerCs "galaxy".toList = "galaxy".toList := by decide
  have e2 : lowerCs "Galaxy".toList = "galaxy".toList := by decide
  have e3 : lowerCs "nebula".toList = "nebula".toList := by decide
  have e4 : lowerCs "Nebula".toList = "nebula".toList := by decide
  have e5 : lowerCs "cluster".toList = "cluster".toList := by decide
  have e6 : lowerCs "Cluster".toList = "cluster".toList := by decide
  have e7 : lowerCs "cloud".toList = "cloud".toList := by decide
  simp only [classify_object_type, OBJECT_CATEGORIES, firstMatch, List.any_cons,
    List.any_nil, e1, e2, e3, e4, e5, e6, e7, Bool.or_self, Bool.or_false,
    Bool.or_self_left, ite_self]

/-- The classifier always lands in the fixed four-element category
set. -/
theorem classify_total_cases (s : String) :
    classify_object_type s = "Galaxy" ∨ classify_object_type s = "Nebula" ∨
    classify_object_type s = "Cluster" ∨ classify_object_type s = "Other" := by
  rw [classify_ifchain s]
  split_ifs <;> simp

/-- Successful RA parses determine the returned value and the absence of
a warning. -/
theorem ra_val_of_parts {s : String} {h m sec : PyNum}
    (hp : raParts s = some (h, m, sec)) :
    ra_to_degrees s = raVal h m sec ∧ ra_to_degrees_logged s = (raVal h m sec, false) := by
  have hl : ra_to_degrees_logged s = (raVal h m sec, false) := by
    simp only [ra_to_degrees_logged, hp]
  exact ⟨by simp only [ra_to_degrees, hl], hl⟩

/-- Failed RA parses yield the default and the warning. -/
theorem ra_none_of_parts {s : String} (hp : raParts s = none) :
    ra_to_degrees s = 0 ∧ ra_to_degrees_logged s = (0, true) := by
  have hl : ra_to_degrees_logged s = (0, true) := by
    simp only [ra_to_degrees_logged, hp]
  exact ⟨by simp only [ra_to_degrees, hl], hl⟩

/-- Successful Dec parses determine the returned value and the absence
of a warning. -/
theorem dec_val_of_parts {s : String} {sg : ℤ} {d m sec : PyNum}
    (hp : decParts s = some (sg, d, m, sec)) :
    dec_to_degrees s = decVal sg d m sec ∧
      dec_to_degrees_logged s = (decVal sg d m sec, false) := by
  have hl : dec_to_degrees_logged s = (decVal sg d m sec, false) := by
    simp only [dec_to_degrees_logged, hp]
  exact ⟨by simp only [dec_to_degrees, hl], hl⟩

/-- Failed Dec parses yield the default and the warning. -/
theorem dec_none_of_parts {s : String} (hp : decParts s = none) :
    dec_to_degrees s = 0 ∧ dec_to_degrees_logged s = (0, true) := by
  have hl : dec_to_degrees_logged s = (0, true) := by
    simp only [dec_to_degrees_logged, hp]
  exact ⟨by simp only [dec_to_degrees, hl], hl⟩

/-- The sign produced by `decParts` is always `1` or `-1`. -/
theorem decParts_sign {s : String} {sg : ℤ} {d m sec : PyNum}
    (hp : decParts s = some (sg, d, m, sec)) : sg = -1 ∨ sg = 1 := by
  simp only [decParts] at hp
  rcases hcs : removeChar '"' (removeChar squoteChar
      (removeChar '″' (removeChar '′' (removeChar '°' s.toList)))) with _ | ⟨c0, rest⟩
  · rw [hcs] at hp; simp at hp
  · rw [hcs] at hp
    simp only [Option.map_eq_some'] at hp
    obtain ⟨t, -, heq⟩ := hp
    have h1 : (if c0 = '-' ∨ c0 = uminusChar then (-1 : ℤ) else 1) = sg := by
      have := congrArg Prod.fst heq
      simpa using this
    split at h1
    · exact Or.inl h1.symm
    · exact Or.inr h1.symm

/-! ### Claim theorems -/

/-- C1: for every object-type label, `classify_object_type` performs a
case-insensitive substring match against each keyword list of the
categories in the fixed order Galaxy, Nebula, Cluster, Other, returning
the first matching category and defaulting to Other; a label containing
both the substrings nebula and cluster (and not galaxy) is classified by
the first matching category in that order, namely Nebula. -/
theorem C1_classify_first_match_order (s : String) :
    classify_object_type s =
      (if isSubstrCs "galaxy".toList (lowerCs s.toList) then "Galaxy"
       else if isSubstrCs "nebula".toList (lowerCs s.toList) then "Nebula"
       else if isSubstrCs "cluster".toList (lowerCs s.toList)
              || isSubstrCs "cloud".toList (lowerCs s.toList) then "Cluster"
       else "Other") ∧
    (isSubstrCs "nebula".toList (lowerCs s.toList) = true →
     isSubstrCs "cluster".toList (lowerCs s.toList) = true →
     isSubstrCs "galaxy".toList (lowerCs s.toList) = false →
     classify_object_type s = "Nebula") := by
  refine ⟨classify_ifchain s, fun hn hc hg => ?_⟩
  rw [classify_ifchain s, hg, hn]
  simp

/-- C1 applied to the concrete catalog label containing both nebula and
cluster. -/
theorem C1_witness :
    isSubstrCs "nebula".toList (lowerCs "Nebula with cluster".toList) = true ∧
    isSubstrCs "cluster".toList (lowerCs "Nebula with cluster".toList) = true ∧
    classify_object_type "Nebula with cluster" = "Nebula" :=
  ⟨by decide, by decide,
   (C1_classify_first_match_order "Nebula with cluster").2 (by decide) (by decide) (by decide)⟩

/-- C6: `classify_object_type` is total (every string yields one of the
four fixed categories) and idempotent (applying it to any of its own
outputs returns that output unchanged). -/
theorem C6_classify_total_idempotent (s : String) :
    (classify_object_type s = "Galaxy" ∨ classify_object_type s = "Nebula" ∨
     classify_object_type s = "Cluster" ∨ classify_object_type s = "Other") ∧
    classify_object_type (classify_object_type s) = classify_object_type s := by
  refine ⟨classify_total_cases s, ?_⟩
  rw [classify_ifchain s]
  split_ifs <;> decide

/-- C10: the classifier defined locally inside
`data_utils.get_filter_options` agrees with `config.classify_object_type`
on every label. -/
theorem C10_local_classifier_extensional (s : String) :
    classify_object_type_local s = classify_object_type s := by
  rw [classify_ifchain s]
  simp only [classify_object_type_local, List.any_cons, List.any_nil, Bool.or_false]

/-- C7: `get_object_style` classifies the label, then looks up symbol and
colour in the per-label override tables of that category, keyed by the
lowercased label, falling back to the base symbol and base colour of the
category; the base-config lookup always succeeds; the label Spiral
galaxy yields the Galaxy category with the default galaxy styling. -/
theorem C7_style_classify_then_override (t : String) :
    ∃ cfg : CategoryConfig,
      OBJECT_CATEGORIES.lookup (classify_object_type t) = some cfg ∧
      get_object_style t =
        ⟨((symbol_variations (classify_object_type t)).lookup
            (String.mk (lowerCs t.toList))).getD cfg.base_symbol,
         ((color_variations (classify_object_type t)).lookup
            (String.mk (lowerCs t.toList))).getD cfg.base_color,
         8, classify_object_type t⟩ ∧
      get_object_style "Spiral galaxy" = ⟨"circle", "#FF6B6B", 8, "Galaxy"⟩ ∧
      OBJECT_CATEGORIES.lookup "Galaxy" =
        some ⟨"circle", "#FF6B6B", ["galaxy", "Galaxy"]⟩ := by
  have hcfg : ∃ cfg : CategoryConfig,
      OBJECT_CATEGORIES.lookup (classify_object_type t) = some cfg := by
    rcases classify_total_cases t with h | h | h | h
    · exact ⟨⟨"circle", "#FF6B6B", ["galaxy", "Galaxy"]⟩, by rw [h]; decide⟩
    · exact ⟨⟨"square", "#DDA0DD", ["nebula", "Nebula"]⟩, by rw [h]; decide⟩
    · exact ⟨⟨"star", "#96CEB4", ["cluster", "Cluster", "cloud"]⟩, by rw [h]; decide⟩
    · exact ⟨⟨"diamond", "#FFEAA7", []⟩, by rw [h]; decide⟩
  obtain ⟨cfg, hcfg⟩ := hcfg
  refine ⟨cfg, hcfg, ?_, by decide, by decide⟩
  simp only [get_object_style, hcfg, Option.getD_some]

/-- C3: for every RA string whose parse succeeds with hours in `[0,24]`,
minutes and seconds in `[0,60)` and a total of at most 24 hours,
`ra_to_degrees` returns the hour value scaled by 15, lying in
`[0,360]`. -/
theorem C3_ra_degrees_range (s : String) (h m sec : PyNum)
    (hp : raParts s = some (h, m, sec))
    (hh0 : 0 ≤ h.toRat) (hh24 : h.toRat ≤ 24)
    (hm0 : 0 ≤ m.toRat) (hm60 : m.toRat < 60)
    (hs0 : 0 ≤ sec.toRat) (hs60 : sec.toRat < 60)
    (htot : h.toRat + m.toRat / 60 + sec.toRat / 3600 ≤ 24) :
    ra_to_degrees s = (h.toRat + m.toRat / 60 + sec.toRat / 3600) * 15 ∧
    0 ≤ ra_to_degrees s ∧ ra_to_degrees s ≤ 360 := by
  obtain ⟨hv, -⟩ := ra_val_of_parts hp
  rw [hv]
  unfold raVal
  have h1 : (0:ℚ) ≤ m.toRat / 60 := by positivity
  have h2 : (0:ℚ) ≤ sec.toRat / 3600 := by positivity
  refine ⟨rfl, ?_, ?_⟩ <;> nlinarith

/-- C3 applied to the RA text of the Crab Nebula sample row. -/
theorem C3_witness :
    ra_to_degrees "05h 34m 31.9s" =
      ((⟨5,0⟩ : PyNum).toRat + (⟨34,0⟩ : PyNum).toRat / 60 +
        (⟨319,1⟩ : PyNum).toRat / 3600) * 15 ∧
    0 ≤ ra_to_degrees "05h 34m 31.9s" ∧ ra_to_degrees "05h 34m 31.9s" ≤ 360 :=
  C3_ra_degrees_range "05h 34m 31.9s" ⟨5,0⟩ ⟨34,0⟩ ⟨319,1⟩ (by decide)
    (by norm_num [PyNum.toRat]) (by norm_num [PyNum.toRat])
    (by norm_num [PyNum.toRat]) (by norm_num [PyNum.toRat])
    (by norm_num [PyNum.toRat]) (by norm_num [PyNum.toRat])
    (by norm_num [PyNum.toRat])

/-- C2: for every Dec string whose parse succeeds with degrees in
`[0,90]`, minutes and seconds in `[0,60)` and total magnitude at most
90, `dec_to_degrees` returns a value in `[-90,90]` whose sign matches
the parsed input sign (the parse reads ASCII minus, Unicode minus and
plus). -/
theorem C2_dec_degrees_range_sign (s : String) (sg : ℤ) (d m sec : PyNum)
    (hp : decParts s = some (sg, d, m, sec))
    (hd0 : 0 ≤ d.toRat) (hd90 : d.toRat ≤ 90)
    (hm0 : 0 ≤ m.toRat) (hm60 : m.toRat < 60)
    (hs0 : 0 ≤ sec.toRat) (hs60 : sec.toRat < 60)
    (htot : d.toRat + m.toRat / 60 + sec.toRat / 3600 ≤ 90) :
    (-90 ≤ dec_to_degrees s ∧ dec_to_degrees s ≤ 90) ∧
    (sg = 1 → 0 ≤ dec_to_degrees s) ∧ (sg = -1 → dec_to_degrees s ≤ 0) := by
  obtain ⟨hv, -⟩ := dec_val_of_parts hp
  rw [hv]
  unfold decVal
  have h1 : (0:ℚ) ≤ m.toRat / 60 := by positivity
  have h2 : (0:ℚ) ≤ sec.toRat / 3600 := by positivity
  rcases decParts_sign hp with hsg | hsg <;> subst hsg <;> push_cast <;>
    refine ⟨⟨by nlinarith, by nlinarith⟩, fun he => ?_, fun he => ?_⟩
  · exact absurd he (by norm_num)
  · nlinarith
  · nlinarith
  · exact absurd he (by norm_num)

/-- C2 applied to a Dec string written with the Unicode minus sign. -/
theorem C2_witness :
    dec_to_degrees "−05° 23′ 13″" ≤ 0 ∧ -90 ≤ dec_to_degrees "−05° 23′ 13″" := by
  have h := C2_dec_degrees_range_sign "−05° 23′ 13″" (-1) ⟨5,0⟩ ⟨23,0⟩ ⟨13,0⟩
    (by decide) (by norm_num [PyNum.toRat]) (by norm_num [PyNum.toRat])
    (by norm_num [PyNum.toRat]) (by norm_num [PyNum.toRat])
    (by norm_num [PyNum.toRat]) (by norm_num [PyNum.toRat])
    (by norm_num [PyNum.toRat])
  exact ⟨h.2.2 rfl, h.1.1⟩

/-- C4: both coordinate parsers are total; when the parse fails the
function returns the default 0 and prints its warning line, and when it
succeeds it returns the computed value without a warning — the caught
exception is never propagated past the try/except. -/
theorem C4_parsers_fail_soft (s : String) :
    ((raParts s).isNone → ra_to_degrees_logged s = (0, true)) ∧
    (∀ h m sec, raParts s = some (h, m, sec) →
      ra_to_degrees_logged s = (raVal h m sec, false)) ∧
    ((decParts s).isNone → dec_to_degrees_logged s = (0, true)) ∧
    (∀ sg d m sec, decParts s = some (sg, d, m, sec) →
      dec_to_degrees_logged s = (decVal sg d m sec, false)) := by
  refine ⟨fun hn => ?_, fun h m sec hp => (ra_val_of_parts hp).2,
    fun hn => ?_, fun sg d m sec hp => (dec_val_of_parts hp).2⟩
  · exact (ra_none_of_parts (Option.isNone_iff_eq_none.mp hn)).2
  · exact (dec_none_of_parts (Option.isNone_iff_eq_none.mp hn)).2

/-- C4 applied to two malformed inputs. -/
theorem C4_witness :
    (raParts "not a coordinate").isNone = true ∧
    ra_to_degrees_logged "not a coordinate" = (0, true) ∧
    (decParts "").isNone = true ∧
    dec_to_degrees_logged "" = (0, true) :=
  ⟨by decide, (C4_parsers_fail_soft "not a coordinate").1 (by decide),
   by decide, (C4_parsers_fail_soft "").2.2.1 (by decide)⟩

/-- C5: the concrete examples of the spec, exactly:
`ra_to_degrees` on the string 05h 34m 31.9s gives
`(5 + 34/60 + 31.9/3600) * 15` (the rational `200719/2400`, the decimal
`83.6329166...`), and `dec_to_degrees` on the string +22° 00′ 52″ gives
`22 + 0/60 + 52/3600` (the rational `19813/900`, the decimal
`22.01444...`). -/
theorem C5_example_values :
    ra_to_degrees "05h 34m 31.9s" = (5 + 34/60 + (319/10)/3600) * 15 ∧
    ra_to_degrees "05h 34m 31.9s" = 200719/2400 ∧
    dec_to_degrees "+22° 00′ 52″" = 22 + 0/60 + 52/3600 ∧
    dec_to_degrees "+22° 00′ 52″" = 19813/900 := by
  have hra : raParts "05h 34m 31.9s" = some (⟨5,0⟩, ⟨34,0⟩, ⟨319,1⟩) := by decide
  have hdec : decParts "+22° 00′ 52″" = some (1, ⟨22,0⟩, ⟨0,0⟩, ⟨52,0⟩) := by decide
  have h1 := (ra_val_of_parts hra).1
  have h2 := (dec_val_of_parts hdec).1
  rw [h1, h2]
  norm_num [raVal, decVal, PyNum.toRat]

/-- C8 counterexample: with the external service requested and yielding
a table AND an explicit, readable file path, `load_messier_data` returns
the table of the service, not — as the claimed priority order (file
first, then service) would have it — the table of the file. -/
theorem C8_counterexample :
    load_messier_data cexEnv (some "Messier_data.csv") true = [cexRowService] ∧
    load_messier_data_claimed cexEnv (some "Messier_data.csv") true = [cexRowFile] ∧
    load_messier_data cexEnv (some "Messier_data.csv") true ≠
      load_messier_data_claimed cexEnv (some "Messier_data.csv") true := by
  refine ⟨rfl, rfl, fun hEq => ?_⟩
  have h2 := congrArg (List.map MessierRow.commonName) hEq
  simp [cexEnv, load_messier_data, load_messier_data_claimed, load_csv_or_sample,
    cexRowService, cexRowFile] at h2

/-- C8 (amended): the priority order of `load_messier_data` is external
service first (only when requested; best-effort, a failed service
tolerated), then the explicit file path (defaulting to
Messier_data.csv), else the embedded sample; a missing or unreadable
file always yields the embedded sample and the function is total (never
raises). -/
theorem C8_loader_priority (env : DataEnv) (path : Option String) :
    (∀ t, env.astropyResult = some t → load_messier_data env path true = t) ∧
    (env.astropyResult = none →
      load_messier_data env path true = load_csv_or_sample env path) ∧
    (load_messier_data env path false = load_csv_or_sample env path) ∧
    (∀ t, env.readCsv (path.getD "Messier_data.csv") = .ok t →
      load_csv_or_sample env path = t) ∧
    (env.readCsv (path.getD "Messier_data.csv") = .notFound →
      load_csv_or_sample env path = SAMPLE_MESSIER_DATA) ∧
    (env.readCsv (path.getD "Messier_data.csv") = .failed →
      load_csv_or_sample env path = SAMPLE_MESSIER_DATA) := by
  refine ⟨fun t ht => ?_, fun hn => ?_, rfl, fun t ht => ?_, fun hcsv => ?_, fun hcsv => ?_⟩
  · simp only [load_messier_data, if_true, ht]
  · simp only [load_messier_data, if_true, hn]
  · simp only [load_csv_or_sample, ht]
  · simp only [load_csv_or_sample, hcsv]
  · simp only [load_csv_or_sample, hcsv]

/-- C8 amended theorem applied to an environment with no service result
and a missing file: the embedded sample is returned. -/
theorem C8_witness :
    load_messier_data ⟨none, fun _ => .notFound⟩ none true = SAMPLE_MESSIER_DATA := by
  have h := C8_loader_priority ⟨none, fun _ => .notFound⟩ none
  exact (h.2.1 rfl).trans (h.2.2.2.2.1 rfl)

/-- C9: `process_coordinates` adds exactly the derived columns `ra_deg`
and `dec_deg` (computed by the two parsers) and leaves every row and
every other column unchanged — erasing the two added columns returns
the input table exactly, with no validity condition: rows with
out-of-range coordinates only raise the warning flag and are never
removed; the input of the caller is untouched (the source copies the
frame, and the embedded function is pure). -/
theorem C9_process_coordinates_frame {α : Type} (data : List (CoordRow α)) :
    (process_coordinates data).map CoordRowOut.toCoordRow = data ∧
    (process_coordinates data).length = data.length ∧
    (∀ r ∈ process_coordinates data,
      r.ra_deg = ra_to_degrees r.rightAscension ∧
      r.dec_deg = dec_to_degrees r.declination) ∧
    (process_coordinates_warns data →
      (process_coordinates data).map CoordRowOut.toCoordRow = data) := by
  have hmap : (process_coordinates data).map CoordRowOut.toCoordRow = data := by
    simp [process_coordinates, List.map_map, Function.comp_def]
  refine ⟨hmap, ?_, ?_, fun _ => hmap⟩
  · simp [process_coordinates]
  · intro r hr
    simp only [process_coordinates, List.mem_map] at hr
    obtain ⟨r0, -, rfl⟩ := hr
    exact ⟨rfl, rfl⟩

/-- C9 applied to a one-row table whose coordinates are out of range:
the row is preserved and its derived columns come from the parsers. -/
theorem C9_witness :
    (process_coordinates [c9row]).map CoordRowOut.toCoordRow = [c9row] ∧
    ∀ r ∈ process_coordinates [c9row], r.ra_deg = ra_to_degrees r.rightAscension :=
  ⟨(C9_process_coordinates_frame [c9row]).1,
   fun r hr => ((C9_process_coordinates_frame [c9row]).2.2.1 r hr).1⟩
